import Mathlib

/-!
Verification development for the museum-api repository.

The repository ships one source file, src/app.py: a museum-collection
search browser (HTTP glue, caching, pagination slicing over the id list
returned by the Met /search endpoint).  The spec's selected CORE — the
generative-poster shape generator — is code of the repository that is not
under src/, so it is modelled from the spec (each such definition carries
a doc comment starting with Modelled from the spec).

Part 1 below embeds the relevant fragments of src/app.py.
Part 2 models the poster generator from the spec.
-/

namespace MuseumApp

/-- The subset of Python runtime values that occur as filter-parameter
values in src/app.py: None, strings, ints, bools and lists. -/
inductive PyVal where
  | none
  | str (s : String)
  | int (n : Int)
  | bool (b : Bool)
  | list (xs : List PyVal)
  deriving Repr

mutual

/-- Python equality on those values: numbers and booleans compare
numerically (False == 0 and True == 1 hold in Python), strings compare as
strings, lists elementwise, and None is equal only to None. -/
def pyEq : PyVal → PyVal → Bool
  | PyVal.none, PyVal.none => true
  | PyVal.str a, PyVal.str b => a == b
  | PyVal.int a, PyVal.int b => a == b
  | PyVal.int a, PyVal.bool b => a == (if b then (1 : Int) else 0)
  | PyVal.bool a, PyVal.int b => (if a then (1 : Int) else 0) == b
  | PyVal.bool a, PyVal.bool b => a == b
  | PyVal.list a, PyVal.list b => pyEqList a b
  | _, _ => false

/-- Elementwise Python equality of two lists. -/
def pyEqList : List PyVal → List PyVal → Bool
  | [], [] => true
  | x :: xs, y :: ys => pyEq x y && pyEqList xs ys
  | _, _ => false

end

/-- Python membership x in t over a tuple t, as used by the
querystring comprehension: true when some element of t equals x. -/
def pyMem (v : PyVal) (t : List PyVal) : Bool :=
  t.any (fun e => pyEq v e)

/-- The tuple (None, "", [], False) from line 37 of src/app.py. -/
def falsyTuple : List PyVal :=
  [PyVal.none, PyVal.str "", PyVal.list [], PyVal.bool false]

/-- The dict comprehension on line 37 of src/app.py:
clean keeps exactly the pairs whose value is not in (None, "", [], False)
under Python equality. -/
def clean (kwargs : List (String × PyVal)) : List (String × PyVal) :=
  kwargs.filter (fun kv => !(pyMem kv.2 falsyTuple))

mutual

/-- Python repr of a value (as produced inside str() of a list):
strings are quoted, True/False/None spelled as in Python. -/
def pyRepr : PyVal → String
  | PyVal.none => "None"
  | PyVal.str s => "\x27" ++ s ++ "\x27"
  | PyVal.int n => toString n
  | PyVal.bool b => if b then "True" else "False"
  | PyVal.list xs => "[" ++ String.intercalate ", " (pyReprList xs) ++ "]"

/-- repr of each element of a list. -/
def pyReprList : List PyVal → List String
  | [] => []
  | x :: xs => pyRepr x :: pyReprList xs

end

/-- Python str() of a value: a string is itself, anything else its repr. -/
def pyStr : PyVal → String
  | PyVal.str s => s
  | v => pyRepr v

/-- One hex digit, uppercase, as percent-encoding writes it. -/
def hexDigit (n : Nat) : Char :=
  if n < 10 then Char.ofNat (48 + n) else Char.ofNat (55 + n)

/-- Percent-encoding of one byte: a percent sign and two uppercase hex
digits. -/
def percentByte (b : Nat) : String :=
  "%" ++ String.mk [hexDigit (b / 16), hexDigit (b % 16)]

/-- urllib's always-safe characters: ASCII letters, digits and _.-~ . -/
def alwaysSafe (c : Char) : Bool :=
  (c.isAlphanum && c.toNat < 128) || c == '_' || c == '.' || c == '-' || c == '~'

/-- quote_plus on one character: safe characters pass through, a space
becomes a plus, everything else is percent-encoded bytewise (UTF-8). -/
def quotePlusChar (c : Char) : String :=
  if c == ' ' then "+"
  else if alwaysSafe c then String.mk [c]
  else String.join ((String.mk [c]).toUTF8.toList.map (fun b => percentByte b.toNat))

/-- urllib.parse.quote_plus with the default safe set. -/
def quotePlus (s : String) : String :=
  String.join (s.toList.map quotePlusChar)

/-- One key/value pair as urlencode(..., doseq=True) renders it: a string
value gives one k=v component, a list value one component per element
(str() applied to non-string elements), any other value one component
with str() of the value. -/
def encodePair (k : String) (v : PyVal) : List String :=
  match v with
  | PyVal.str s => [quotePlus k ++ "=" ++ quotePlus s]
  | PyVal.list xs =>
      xs.map (fun e => quotePlus k ++ "=" ++
        quotePlus (match e with | PyVal.str s => s | e => pyStr e))
  | v => [quotePlus k ++ "=" ++ quotePlus (pyStr v)]

/-- urllib.parse.urlencode(query, doseq=True): the encoded components of
all pairs, joined with ampersands. -/
def urlencodeDoseq (query : List (String × PyVal)) : String :=
  String.intercalate "&" (query.map (fun kv => encodePair kv.1 kv.2)).flatten

/-- querystring from lines 35-38 of src/app.py: drop the pairs whose
value is in (None, "", [], False), urlencode the rest with doseq=True. -/
def querystring (kwargs : List (String × PyVal)) : String :=
  urlencodeDoseq (clean kwargs)

/-- A JSON value, as requests' r.json() decodes a response body. -/
inductive Json where
  | null
  | bool (b : Bool)
  | num (n : Int)
  | str (s : String)
  | arr (xs : List Json)
  | obj (fields : List (String × Json))
  deriving Repr

/-- Lookup of a key in a decoded JSON object (dict keys are unique, so
first match suffices). -/
def Json.find : List (String × Json) → String → Option Json
  | [], _ => Option.none
  | (k', v) :: rest, k => if k' = k then some v else Json.find rest k

/-- Python dict.get(k, dflt) on a decoded JSON object. -/
def jsGet (fields : List (String × Json)) (k : String) (dflt : Json) : Json :=
  (Json.find fields k).getD dflt

/-- Python truthiness of a decoded JSON value: None, False, 0, "", [] and
empty objects are falsy. -/
def Json.truthy : Json → Bool
  | Json.null => false
  | Json.bool b => b
  | Json.num n => n != 0
  | Json.str s => s ≠ ""
  | Json.arr xs => !xs.isEmpty
  | Json.obj fields => !fields.isEmpty

/-- Whether a decoded JSON value is a list. -/
def Json.isArr : Json → Bool
  | Json.arr _ => true
  | _ => false

/-- Whether a decoded JSON value is null (Python None). -/
def Json.isNull : Json → Bool
  | Json.null => true
  | _ => false

/-- The body of met_search, lines 21-27 of src/app.py, applied to the
decoded JSON object of the /search response:
returns (js.get("total", 0), js.get("objectIDs", []) or []).
Python x or y yields x when x is truthy, else y. -/
def met_search (js : List (String × Json)) : Json × Json :=
  (jsGet js "total" (Json.num 0),
   let ids := jsGet js "objectIDs" (Json.arr [])
   if ids.truthy then ids else Json.arr [])

/-- Python list slicing xs[a:b] for nonnegative bounds. -/
def pySlice {α : Type} (xs : List α) (a b : Nat) : List α :=
  (xs.take b).drop a

/-- Lines 106-109 of src/app.py: start = (page - 1) * page_size,
end = min(start + page_size, len(ids)), page_ids = ids[start:end]. -/
def page_ids {α : Type} (ids : List α) (page page_size : Nat) : List α :=
  let start := (page - 1) * page_size
  let stop := min (start + page_size) ids.length
  pySlice ids start stop

/-- Line 131 of src/app.py: total_pages = max(1, ceil(len(ids)/page_size)),
with the ceiling of the exact quotient written as Nat ceiling division. -/
def total_pages {α : Type} (ids : List α) (page_size : Nat) : Nat :=
  max 1 ((ids.length + page_size - 1) / page_size)

/-- The sidebar inputs of src/app.py that feed the search_params dict. -/
structure SidebarInputs where
  q : String
  date_begin : Option Int
  date_end : Option Int
  dept : Option Int
  has_images : Bool
  is_highlight : Bool
  is_on_view : Bool
  artist_or_culture : Bool
  title_only : Bool
  tags_only : Bool
  medium : String
  geo : String

/-- Lines 73-89 of src/app.py: the search_params dict in insertion order.
Each checkbox adds its key when set; departmentId when a department is
chosen; medium/geoLocation when the text is nonempty; dateBegin and
dateEnd together exactly when both year inputs are not None. -/
def search_params (s : SidebarInputs) : List (String × PyVal) :=
  [("q", PyVal.str (if s.q = "" then "" else s.q))]
  ++ (if s.has_images then [("hasImages", PyVal.str "true")] else [])
  ++ (if s.is_highlight then [("isHighlight", PyVal.str "true")] else [])
  ++ (if s.is_on_view then [("isOnView", PyVal.str "true")] else [])
  ++ (if s.artist_or_culture then [("artistOrCulture", PyVal.str "true")] else [])
  ++ (if s.title_only then [("title", PyVal.str "true")] else [])
  ++ (if s.tags_only then [("tags", PyVal.str "true")] else [])
  ++ (match s.dept with | some d => [("departmentId", PyVal.int d)] | _ => [])
  ++ (if s.medium ≠ "" then [("medium", PyVal.str s.medium)] else [])
  ++ (if s.geo ≠ "" then [("geoLocation", PyVal.str s.geo)] else [])
  ++ (match s.date_begin, s.date_end with
      | some b, some e => [("dateBegin", PyVal.int b), ("dateEnd", PyVal.int e)]
      | _, _ => [])

/-- Helper: Nat ceiling division (n + d - 1) / d is the ceiling of the
exact rational quotient, for a positive divisor. -/
theorem add_pred_div_eq_ceil (n d : Nat) (hd : 0 < d) :
    (n + d - 1) / d = Nat.ceil ((n : ℚ) / (d : ℚ)) := by
  have hdq : (0 : ℚ) < (d : ℚ) := by exact_mod_cast hd
  apply le_antisymm
  · rw [Nat.div_le_iff_le_mul_add_pred hd]
    have h1 : ((n : ℚ) / d) ≤ (Nat.ceil ((n : ℚ) / d) : ℚ) := Nat.le_ceil _
    rw [div_le_iff₀ hdq] at h1
    have h3 : n ≤ Nat.ceil ((n : ℚ) / (d : ℚ)) * d := by exact_mod_cast h1
    have h4 : Nat.ceil ((n : ℚ) / (d : ℚ)) * d = d * Nat.ceil ((n : ℚ) / (d : ℚ)) := by ring
    omega
  · rw [Nat.ceil_le, div_le_iff₀ hdq]
    have key : n ≤ ((n + d - 1) / d) * d := by
      rcases Nat.eq_zero_or_pos n with h | h
      · simp [h]
      · have hrw : n + d - 1 = (n - 1) + d := by omega
        rw [hrw, Nat.add_div_right _ hd]
        have h1 : d * ((n - 1) / d) + (n - 1) % d = n - 1 := Nat.div_add_mod _ _
        have h2 : (n - 1) % d < d := Nat.mod_lt _ hd
        have h3 : ((n - 1) / d + 1) * d = d * ((n - 1) / d) + d := by ring
        omega
    exact_mod_cast key

/-- C7: the museum app renders exactly the slice
ids[(page-1)*page_size : min((page-1)*page_size + page_size, len(ids))]
(hence at most page_size items, the i-th rendered item being
ids[(page-1)*page_size + i]), and reports the total page count as
max(1, ceil(len(ids)/page_size)). -/
theorem page_ids_is_the_slice {α : Type} (ids : List α) (page page_size : Nat)
    (hpage : 1 ≤ page) (hps : 0 < page_size) :
    page_ids ids page page_size =
      pySlice ids ((page - 1) * page_size)
        (min ((page - 1) * page_size + page_size) ids.length)
    ∧ (page_ids ids page page_size).length ≤ page_size
    ∧ (∀ i (hi : i < (page_ids ids page page_size).length),
        ∃ hj : (page - 1) * page_size + i < ids.length,
          (page_ids ids page page_size).get ⟨i, hi⟩ =
            ids.get ⟨(page - 1) * page_size + i, hj⟩)
    ∧ total_pages ids page_size =
        max 1 (Nat.ceil ((ids.length : ℚ) / (page_size : ℚ))) := by
  refine ⟨rfl, ?_, ?_, ?_⟩
  · simp only [page_ids, pySlice, List.length_drop, List.length_take]
    omega
  · intro i hi
    have hlen : (page_ids ids page page_size).length =
        min ((page - 1) * page_size + page_size) ids.length - (page - 1) * page_size := by
      simp only [page_ids, pySlice, List.length_drop, List.length_take]
      omega
    have hj : (page - 1) * page_size + i < ids.length := by omega
    refine ⟨hj, ?_⟩
    have hi' : i < ((ids.take (min ((page - 1) * page_size + page_size) ids.length)).drop
        ((page - 1) * page_size)).length := hi
    simp only [page_ids, pySlice, List.get_eq_getElem]
    rw [List.getElem_drop, List.getElem_take]
  · show max 1 ((ids.length + page_size - 1) / page_size) = _
    rw [add_pred_div_eq_ceil _ _ hps]

/-- C7 witness: the slice, length bound, element characterization and page
count at ids = [10,20,30,40,50], page 2, page size 2. -/
theorem page_ids_is_the_slice_witness :
    page_ids [10, 20, 30, 40, 50] 2 2 =
      pySlice [10, 20, 30, 40, 50] ((2 - 1) * 2) (min ((2 - 1) * 2 + 2) ([10, 20, 30, 40, 50] : List Nat).length)
    ∧ (page_ids [10, 20, 30, 40, 50] 2 2).length ≤ 2
    ∧ (∀ i (hi : i < (page_ids [10, 20, 30, 40, 50] 2 2).length),
        ∃ hj : (2 - 1) * 2 + i < ([10, 20, 30, 40, 50] : List Nat).length,
          (page_ids [10, 20, 30, 40, 50] 2 2).get ⟨i, hi⟩ =
            ([10, 20, 30, 40, 50] : List Nat).get ⟨(2 - 1) * 2 + i, hj⟩)
    ∧ total_pages [10, 20, 30, 40, 50] 2 =
        max 1 (Nat.ceil ((([10, 20, 30, 40, 50] : List Nat).length : ℚ) / (2 : ℚ))) :=
  page_ids_is_the_slice [10, 20, 30, 40, 50] 2 2 (by decide) (by decide)

/-- C8 counterexample: the claim says a value 0 is preserved, but Python
evaluates 0 == False as true, so the comprehension drops the pair: the
querystring of a mapping with the single value 0 is empty, while encoding
that pair would give a=0. -/
theorem querystring_drops_zero :
    querystring [("a", PyVal.int 0)] = ""
    ∧ urlencodeDoseq [("a", PyVal.int 0)] = "a=0" :=
  ⟨rfl, rfl⟩

/-- C8 (amended): querystring returns the URL-encoded string of exactly
those pairs whose value is not Python-equal to None, "", [] or False; by
Python numeric equality the integer 0 equals False and is therefore
dropped as well, while True (equal to 1) is preserved; the empty mapping
yields the empty string. -/
theorem querystring_filters_falsy (kwargs : List (String × PyVal)) :
    querystring kwargs =
      urlencodeDoseq (kwargs.filter (fun kv =>
        !(pyEq kv.2 PyVal.none || pyEq kv.2 (PyVal.str "") ||
          pyEq kv.2 (PyVal.list []) || pyEq kv.2 (PyVal.bool false))))
    ∧ querystring [] = ""
    ∧ querystring [("a", PyVal.bool true)] = "a=True"
    ∧ querystring [("b", PyVal.int 0)] = "" := by
  refine ⟨?_, rfl, rfl, rfl⟩
  simp [querystring, clean, pyMem, falsyTuple, Bool.and_assoc]

/-- C9 counterexample: a /search response body that maps objectIDs to the
non-list truthy value 5 is passed through unchanged by met_search, so the
returned ids is not a list. -/
theorem met_search_nonlist_passthrough :
    (met_search [("objectIDs", Json.num 5)]).2 = Json.num 5
    ∧ Json.isArr (Json.num 5) = false :=
  ⟨rfl, rfl⟩

/-- C9 (amended): met_search never hands the caller null in place of the
id list; when the response omits objectIDs, maps it to null (or to any
falsy value), ids is the empty list; when it maps objectIDs to a list,
ids is a list; total defaults to 0 when the response omits it.  (A
non-list truthy objectIDs value, outside the endpoint schema, would be
passed through unchanged.) -/
theorem met_search_ids_defaults (js : List (String × Json)) :
    Json.isNull (met_search js).2 = false
    ∧ (Json.find js "objectIDs" = Option.none → (met_search js).2 = Json.arr [])
    ∧ (Json.find js "objectIDs" = some Json.null → (met_search js).2 = Json.arr [])
    ∧ (∀ v, Json.find js "objectIDs" = some v → Json.truthy v = false →
        (met_search js).2 = Json.arr [])
    ∧ (∀ xs, Json.find js "objectIDs" = some (Json.arr xs) →
        Json.isArr (met_search js).2 = true)
    ∧ (Json.find js "total" = Option.none → (met_search js).1 = Json.num 0) := by
  refine ⟨?_, ?_, ?_, ?_, ?_, ?_⟩
  · have key : ∀ o : Json, Json.isNull (if Json.truthy o then o else Json.arr []) = false := by
      intro o
      split
      · next hc => cases o <;> simp_all [Json.truthy, Json.isNull]
      · rfl
    simpa [met_search] using key (jsGet js "objectIDs" (Json.arr []))
  · intro h; simp [met_search, jsGet, h, Json.truthy]
  · intro h; simp [met_search, jsGet, h, Json.truthy]
  · intro v h hv; simp [met_search, jsGet, h, hv]
  · intro xs h
    simp only [met_search, jsGet, h, Option.getD_some]
    split <;> simp [Json.isArr]
  · intro h; simp [met_search, jsGet, h]

/-- Helper: membership of a key among the mapped-to-first-components of a
conditionally present singleton pair. -/
theorem mem_map_fst_ite_singleton {α : Type} (c : Prop) [Decidable c]
    (x k : String) (v : α) :
    (x ∈ ((if c then [(k, v)] else []).map Prod.fst)) ↔ (c ∧ x = k) := by
  split_ifs with h <;> simp [h]

/-- Helper: the dateBegin key is present exactly when both year inputs
are provided. -/
theorem mem_keys_dateBegin (s : SidebarInputs) :
    ("dateBegin" ∈ (search_params s).map Prod.fst) ↔
      (s.date_begin.isSome = true ∧ s.date_end.isSome = true) := by
  rcases s with ⟨q, db, de, dp, b1, b2, b3, b4, b5, b6, m, g⟩
  cases db <;> cases de <;> cases dp <;>
    simp [search_params, List.map_append, List.mem_append, mem_map_fst_ite_singleton]

/-- Helper: the dateEnd key is present exactly when both year inputs are
provided. -/
theorem mem_keys_dateEnd (s : SidebarInputs) :
    ("dateEnd" ∈ (search_params s).map Prod.fst) ↔
      (s.date_begin.isSome = true ∧ s.date_end.isSome = true) := by
  rcases s with ⟨q, db, de, dp, b1, b2, b3, b4, b5, b6, m, g⟩
  cases db <;> cases de <;> cases dp <;>
    simp [search_params, List.map_append, List.mem_append, mem_map_fst_ite_singleton]

/-- C10: the search_params dict contains dateBegin exactly when both year
inputs are provided, likewise dateEnd; hence it contains dateBegin iff it
contains dateEnd, and when only one year input is provided neither key is
included. -/
theorem search_params_date_keys (s : SidebarInputs) :
    (("dateBegin" ∈ (search_params s).map Prod.fst) ↔
        (s.date_begin.isSome = true ∧ s.date_end.isSome = true))
    ∧ (("dateEnd" ∈ (search_params s).map Prod.fst) ↔
        (s.date_begin.isSome = true ∧ s.date_end.isSome = true))
    ∧ (("dateBegin" ∈ (search_params s).map Prod.fst) ↔
        ("dateEnd" ∈ (search_params s).map Prod.fst)) :=
  ⟨mem_keys_dateBegin s, mem_keys_dateEnd s,
    (mem_keys_dateBegin s).trans (mem_keys_dateEnd s).symm⟩

end MuseumApp

namespace Poster

/-- Modelled from the spec: the poster generator's source of seeded
randomness (the generator's code is not under src/, only the museum app
is).  The spec fixes no PRNG algorithm, only that a fixed seed yields a
fixed stream; one step of a 32-bit linear congruential generator. -/
def lcgStep (s : Nat) : Nat := (1664525 * s + 1013904223) % 4294967296

/-- Modelled from the spec: the state of the per-call random stream keyed
by an integer seed, after n+1 steps from the seed. -/
def lcgState (seed : Int) (n : Nat) : Nat :=
  lcgStep^[n + 1] (seed % 4294967296).toNat

/-- Modelled from the spec: the n-th uniform sample in [0,1) of the
stream keyed by seed. -/
def unif (seed : Int) (n : Nat) : ℚ := (lcgState seed n : ℚ) / 4294967296

/-- Modelled from the spec (§4.2): the n-th noise sample, uniform in
[-0.5, 0.5): a [0,1) sample shifted down by one half. -/
def noise (seed : Int) (n : Nat) : ℚ := unif seed n - 1 / 2

/-- Modelled from the spec (§4.2): the default number of contour
samples. -/
def defaultPoints : Nat := 220

/-- Modelled from the spec (§4.1 Palette Generator): k colors, each
channel drawn independently and uniformly from [0,1), deterministically
from the stream keyed by the seed. -/
def palette (k : Nat) (seed : Int) : List (ℚ × ℚ × ℚ) :=
  (List.range k).map fun i =>
    (unif seed (3 * i), unif seed (3 * i + 1), unif seed (3 * i + 2))

/-- Modelled from the spec (§4.2 Blob Contour Generator): for each of
`points` evenly spaced angles over one full turn (0 to 2π inclusive, so
the first and last angle coincide), an independent noise sample in
[-0.5, 0.5) perturbs the radius multiplicatively, and the contour point
is the polar point at the local radius around the center. -/
noncomputable def blobContour (cx cy radius : ℝ) (points : Nat)
    (wobbleAmount : ℝ) (seed : Int) : List (ℝ × ℝ) :=
  (List.range points).map fun (i : Nat) =>
    let θ : ℝ := 2 * Real.pi * (i : ℝ) / ((points : ℝ) - 1)
    let r : ℝ := radius * (1 + wobbleAmount * ((noise seed i : ℚ) : ℝ))
    (cx + r * Real.cos θ, cy + r * Real.sin θ)

/-- Modelled from the spec (§3 GenerationParameters): the entry point's
value object.  Channels and fractions are rationals (the spec's reals),
dimensions and counts integers, the seed optional. -/
structure GenerationParameters where
  width : Int
  height : Int
  layerCount : Int
  wobble : ℚ
  baseRadius : ℚ
  seed : Option Int
  backgroundColor : ℚ × ℚ × ℚ
  strokeEnabled : Bool
  strokeAlpha : ℚ

/-- Modelled from the spec (§3 Layer): one blob contour plus one fill
color (the fill alpha is the fixed named constant below). -/
structure Layer where
  contour : List (ℝ × ℝ)
  color : ℚ × ℚ × ℚ

/-- Modelled from the spec (§4.3): the fixed fill alpha 0.8, kept as a
named configuration value. -/
def fillAlpha : ℚ := 4 / 5

/-- Modelled from the spec: the outline half-width in canvas units; the
spec fixes no numeric stroke width, so it is a named constant. -/
def strokeHalfWidth : ℚ := 1 / 400

/-- Modelled from the spec (§4.3 step 2): layer i's geometry.  Its
center's coordinates are two uniforms in [0.3, 0.7], its radius is
baseRadius * (1 - i/(layerCount+2)) * u with u uniform in [0.85, 1.15],
its wobble is the parameter wobble * u2 with u2 uniform in [0.8, 1.2],
and its contour uses the seed offset by the layer index (seed + i); the
geometry samples sit past the contour's `defaultPoints` noise indices so
the two draws never share a stream position.  The fill color is palette
entry i of layerCount + 1 colors. -/
noncomputable def mkLayer (p : GenerationParameters) (s : Int) (i : Nat) : Layer :=
  let str : Int := s + i
  let cx : ℚ := 3 / 10 + 2 / 5 * unif str defaultPoints
  let cy : ℚ := 3 / 10 + 2 / 5 * unif str (defaultPoints + 1)
  let u : ℚ := 17 / 20 + 3 / 10 * unif str (defaultPoints + 2)
  let u2 : ℚ := 4 / 5 + 2 / 5 * unif str (defaultPoints + 3)
  let radius : ℚ := p.baseRadius * (1 - (i : ℚ) / ((p.layerCount : ℚ) + 2)) * u
  let wob : ℚ := p.wobble * u2
  { contour := blobContour (cx : ℝ) (cy : ℝ) (radius : ℝ) defaultPoints (wob : ℝ) str
    color := (palette (p.layerCount.toNat + 1) s).getD i (0, 0, 0) }

/-- Modelled from the spec (§4.3): the ordered layers, layer 0 first
(painter's-algorithm order). -/
noncomputable def layers (p : GenerationParameters) (s : Int) : List Layer :=
  (List.range p.layerCount.toNat).map (mkLayer p s)

/-- The consecutive edges of a closed polygon: each vertex to the next,
and the last back to the first. -/
def closedEdges {α : Type} : List α → List (α × α)
  | [] => []
  | x :: xs => (x :: xs).zip (xs ++ [x])

/-- Modelled from the spec (§4.3 fill rule): whether a horizontal ray
from the sample point crosses one polygon edge (the standard even-odd
crossing test). -/
noncomputable def edgeCrosses (a b q : ℝ × ℝ) : Bool :=
  decide (((a.2 ≤ q.2) ≠ (b.2 ≤ q.2)) ∧
    q.1 < a.1 + (q.2 - a.2) / (b.2 - a.2) * (b.1 - a.1))

/-- Modelled from the spec (§4.3 fill rule): even-odd scan fill — the
sample point is inside when the ray crosses an odd number of edges.
Contours partially off canvas need no special case: pixels are simply
tested where they are (clipping, not rejection). -/
noncomputable def pointInPolygon (poly : List (ℝ × ℝ)) (q : ℝ × ℝ) : Bool :=
  ((closedEdges poly).filter (fun e => edgeCrosses e.1 e.2 q)).length % 2 == 1

/-- Modelled from the spec: whether the sample point lies within w of one
segment (squared point-to-segment distance against w squared). -/
noncomputable def nearSegment (a b q : ℝ × ℝ) (w : ℝ) : Bool :=
  let dx := b.1 - a.1
  let dy := b.2 - a.2
  let len2 := dx ^ 2 + dy ^ 2
  let t0 := ((q.1 - a.1) * dx + (q.2 - a.2) * dy) / len2
  let t := if len2 = 0 then 0 else max 0 (min 1 t0)
  decide ((q.1 - (a.1 + t * dx)) ^ 2 + (q.2 - (a.2 + t * dy)) ^ 2 ≤ w ^ 2)

/-- Modelled from the spec (§4.3): whether the sample point lies on the
drawn contour outline. -/
noncomputable def onOutline (poly : List (ℝ × ℝ)) (q : ℝ × ℝ) (w : ℝ) : Bool :=
  (closedEdges poly).any (fun e => nearSegment e.1 e.2 q w)

/-- Modelled from the spec (§4.3): alpha-blend a fill color over a base
color, channelwise: a·top + (1-a)·base. -/
noncomputable def blendColor (a : ℚ) (top : ℚ × ℚ × ℚ) (base : ℝ × ℝ × ℝ) : ℝ × ℝ × ℝ :=
  ((a : ℝ) * (top.1 : ℝ) + (1 - (a : ℝ)) * base.1,
   (a : ℝ) * (top.2.1 : ℝ) + (1 - (a : ℝ)) * base.2.1,
   (a : ℝ) * (top.2.2 : ℝ) + (1 - (a : ℝ)) * base.2.2)

/-- Modelled from the spec (§4.3): paint one layer at one sample point:
fill the polygon interior at the fixed fill alpha, then, when strokes are
enabled, draw the outline at strokeAlpha. -/
noncomputable def applyLayer (p : GenerationParameters) (q : ℝ × ℝ)
    (base : ℝ × ℝ × ℝ) (L : Layer) : ℝ × ℝ × ℝ :=
  let afterFill := if pointInPolygon L.contour q then blendColor fillAlpha L.color base else base
  if p.strokeEnabled && onOutline L.contour q ((strokeHalfWidth : ℚ) : ℝ) then
    blendColor p.strokeAlpha L.color afterFill
  else afterFill

/-- Modelled from the spec: the unit-square sample point at the center of
pixel (x, y) of the (width × height) canvas. -/
noncomputable def samplePoint (p : GenerationParameters) (x y : Nat) : ℝ × ℝ :=
  (((x : ℝ) + 1 / 2) / (p.width : ℝ), ((y : ℝ) + 1 / 2) / (p.height : ℝ))

/-- Modelled from the spec (§4.3): the composited color of one pixel —
the background painted over by every layer in order, layer 0 first. -/
noncomputable def compositeColor (p : GenerationParameters) (s : Int) (x y : Nat) : ℝ × ℝ × ℝ :=
  (layers p s).foldl (applyLayer p (samplePoint p x y))
    ((p.backgroundColor.1 : ℝ), (p.backgroundColor.2.1 : ℝ), (p.backgroundColor.2.2 : ℝ))

/-- Modelled from the spec (§4.3 TERMINAL, §6 PixelBuffer): flatten one
channel in [0,1] to 8 bits: scale by 255, round to nearest, clamp into
[0, 255]. -/
noncomputable def quantize (c : ℝ) : Nat :=
  min 255 (Int.toNat ⌊c * 255 + 1 / 2⌋)

/-- Modelled from the spec (§6): the pixel buffer — row-major, height
rows of width pixels, each an RGB triple of 8-bit naturals. -/
noncomputable def rasterize (p : GenerationParameters) (s : Int) :
    List (List (Nat × Nat × Nat)) :=
  (List.range p.height.toNat).map fun y =>
    (List.range p.width.toNat).map fun x =>
      let c := compositeColor p s x y
      (quantize c.1, quantize c.2.1, quantize c.2.2)

/-- Modelled from the spec (§7): the invalid-parameter error, naming the
offending parameter. -/
inductive InvalidParameterError where
  | invalidParameter (which : String)
  deriving Repr, DecidableEq

/-- Modelled from the spec (§4.4 Public Entry Point): validate the
parameters first — width ≤ 0, height ≤ 0 or layerCount < 0 fail with
InvalidParameterError before any generation or rasterization work, with
no partial buffer — then rasterize with the per-call seed: the explicit
seed when present, otherwise a value from a fresh per-invocation entropy
source, which the embedding passes explicitly as `entropy`; `entropy` is
consulted nowhere else. -/
noncomputable def generate (p : GenerationParameters) (entropy : Int) :
    Except InvalidParameterError (List (List (Nat × Nat × Nat))) :=
  if p.width ≤ 0 then Except.error (InvalidParameterError.invalidParameter "width")
  else if p.height ≤ 0 then Except.error (InvalidParameterError.invalidParameter "height")
  else if p.layerCount < 0 then Except.error (InvalidParameterError.invalidParameter "layerCount")
  else Except.ok (rasterize p (match p.seed with | some s => s | Option.none => entropy))

/-- Helper: one LCG step stays below 2^32. -/
theorem lcgStep_lt (s : Nat) : lcgStep s < 4294967296 :=
  Nat.mod_lt _ (by norm_num)

/-- Helper: every stream state stays below 2^32. -/
theorem lcgState_lt (seed : Int) (n : Nat) : lcgState seed n < 4294967296 := by
  unfold lcgState
  rw [Function.iterate_succ_apply']
  exact lcgStep_lt _

/-- Helper: uniform samples are nonnegative. -/
theorem unif_nonneg (seed : Int) (n : Nat) : 0 ≤ unif seed n := by
  unfold unif
  positivity

/-- Helper: uniform samples are below one. -/
theorem unif_lt_one (seed : Int) (n : Nat) : unif seed n < 1 := by
  unfold unif
  rw [div_lt_one (by norm_num)]
  exact_mod_cast lcgState_lt seed n

/-- Helper: noise samples lie in [-0.5, 0.5). -/
theorem noise_mem (seed : Int) (n : Nat) :
    -(1 / 2 : ℚ) ≤ noise seed n ∧ noise seed n < 1 / 2 := by
  unfold noise
  constructor
  · have := unif_nonneg seed n
    linarith
  · have := unif_lt_one seed n
    linarith

/-- C4: the blob contour generator returns exactly `points` pairs; the
i-th pair is (cx + rᵢ·cos θᵢ, cy + rᵢ·sin θᵢ) with
rᵢ = radius·(1 + wobbleAmount·nᵢ) and nᵢ = noise seed i a sample in
[-0.5, 0.5), at the evenly spaced angles θᵢ = 2π·i/(points-1), which
cover one full turn: θ₀ = 0 and θ_{points-1} = 2π, so the first and last
angle coincide (equal cosine and sine). -/
theorem blobContour_formula (cx cy radius : ℝ) (points : Nat)
    (wobbleAmount : ℝ) (seed : Int) (hp : 3 ≤ points) (hw : 0 ≤ wobbleAmount) :
    (blobContour cx cy radius points wobbleAmount seed).length = points
    ∧ (∀ i, i < points →
        (blobContour cx cy radius points wobbleAmount seed)[i]? =
          some (cx + radius * (1 + wobbleAmount * ((noise seed i : ℚ) : ℝ)) *
                  Real.cos (2 * Real.pi * (i : ℝ) / ((points : ℝ) - 1)),
                cy + radius * (1 + wobbleAmount * ((noise seed i : ℚ) : ℝ)) *
                  Real.sin (2 * Real.pi * (i : ℝ) / ((points : ℝ) - 1))))
    ∧ (∀ i : Nat, -(1 / 2 : ℚ) ≤ noise seed i ∧ noise seed i < 1 / 2)
    ∧ 2 * Real.pi * ((0 : Nat) : ℝ) / ((points : ℝ) - 1) = 0
    ∧ 2 * Real.pi * ((points - 1 : Nat) : ℝ) / ((points : ℝ) - 1) = 2 * Real.pi
    ∧ Real.cos (2 * Real.pi) = Real.cos 0 ∧ Real.sin (2 * Real.pi) = Real.sin 0 := by
  have hpts : (3 : ℝ) ≤ (points : ℝ) := by exact_mod_cast hp
  have hpos : (0 : ℝ) < (points : ℝ) - 1 := by linarith
  refine ⟨by simp [blobContour], ?_, fun i => noise_mem seed i, by simp, ?_, ?_, ?_⟩
  · intro i hi
    simp [blobContour, List.getElem?_map, List.getElem?_range hi]
  · rw [Nat.cast_sub (by omega), Nat.cast_one, mul_div_assoc, div_self hpos.ne', mul_one]
  · rw [Real.cos_two_pi, Real.cos_zero]
  · rw [Real.sin_two_pi, Real.sin_zero]

/-- C4 witness: the contour formula at center (0,0), radius 1, 3 points,
wobble 0, seed 0. -/
theorem blobContour_formula_witness :
    (blobContour 0 0 1 3 0 0).length = 3
    ∧ (∀ i, i < 3 →
        (blobContour 0 0 1 3 0 0)[i]? =
          some (0 + 1 * (1 + 0 * ((noise 0 i : ℚ) : ℝ)) *
                  Real.cos (2 * Real.pi * (i : ℝ) / (((3 : Nat) : ℝ) - 1)),
                0 + 1 * (1 + 0 * ((noise 0 i : ℚ) : ℝ)) *
                  Real.sin (2 * Real.pi * (i : ℝ) / (((3 : Nat) : ℝ) - 1))))
    ∧ (∀ i : Nat, -(1 / 2 : ℚ) ≤ noise 0 i ∧ noise 0 i < 1 / 2)
    ∧ 2 * Real.pi * ((0 : Nat) : ℝ) / (((3 : Nat) : ℝ) - 1) = 0
    ∧ 2 * Real.pi * ((3 - 1 : Nat) : ℝ) / (((3 : Nat) : ℝ) - 1) = 2 * Real.pi
    ∧ Real.cos (2 * Real.pi) = Real.cos 0 ∧ Real.sin (2 * Real.pi) = Real.sin 0 :=
  blobContour_formula 0 0 1 3 0 0 (by decide) le_rfl

/-- C6: with wobbleAmount = 0 every contour point lies exactly on the
circle of the given radius centered at the center: its squared distance
from (cx, cy) is radius². -/
theorem blobContour_zero_wobble_circle (cx cy radius : ℝ) (points : Nat) (seed : Int) :
    (blobContour cx cy radius points 0 seed).Forall
      (fun pt => (pt.1 - cx) ^ 2 + (pt.2 - cy) ^ 2 = radius ^ 2) := by
  rw [List.forall_iff_forall_mem]
  intro pt hpt
  simp only [blobContour, List.mem_map, List.mem_range] at hpt
  obtain ⟨i, hi, rfl⟩ := hpt
  simp only [zero_mul, add_zero, mul_one, add_sub_cancel_left]
  rw [mul_pow, mul_pow, ← mul_add, Real.cos_sq_add_sin_sq, mul_one]

/-- C1: with an explicit seed, two independent invocations of generate —
here with unrelated entropy values, which generate consults only when the
seed is absent — return the same bit-identical pixel buffer. -/
theorem generate_deterministic (p : GenerationParameters) (s e1 e2 : Int)
    (hw : 0 < p.width) (hh : 0 < p.height) (hl : 0 ≤ p.layerCount)
    (hseed : p.seed = some s) :
    ∃ buf, generate p e1 = Except.ok buf ∧ generate p e2 = Except.ok buf := by
  have h1 : ¬ p.width ≤ 0 := by omega
  have h2 : ¬ p.height ≤ 0 := by omega
  have h3 : ¬ p.layerCount < 0 := by omega
  refine ⟨rasterize p s, ?_, ?_⟩ <;> simp [generate, h1, h2, h3, hseed]

/-- C1 witness: two runs with different entropy but the same explicit
seed 42 agree on a 2×2, one-layer canvas. -/
theorem generate_deterministic_witness :
    ∃ buf,
      generate ⟨2, 2, 1, 1/2, 3/10, some 42, (1, 1, 1), false, 1/2⟩ 0 = Except.ok buf
      ∧ generate ⟨2, 2, 1, 1/2, 3/10, some 42, (1, 1, 1), false, 1/2⟩ 1 = Except.ok buf :=
  generate_deterministic ⟨2, 2, 1, 1/2, 3/10, some 42, (1, 1, 1), false, 1/2⟩ 42 0 1
    (by decide) (by decide) (by decide) rfl

/-- C2: width ≤ 0, height ≤ 0 or layerCount < 0 makes generate fail with
InvalidParameterError — it returns the error, hence no (partial) buffer
and no rasterization result at all. -/
theorem generate_invalid_params (p : GenerationParameters) (e : Int)
    (h : p.width ≤ 0 ∨ p.height ≤ 0 ∨ p.layerCount < 0) :
    ∃ which, generate p e =
      Except.error (InvalidParameterError.invalidParameter which) := by
  unfold generate
  split_ifs with h1 h2 h3
  · exact ⟨"width", rfl⟩
  · exact ⟨"height", rfl⟩
  · exact ⟨"layerCount", rfl⟩
  · omega

/-- C2 witness: generate with width 0 fails with InvalidParameterError. -/
theorem generate_invalid_params_witness :
    ∃ which, generate ⟨0, 100, 1, 1/2, 3/10, some 7, (1, 1, 1), false, 1/2⟩ 0 =
      Except.error (InvalidParameterError.invalidParameter which) :=
  generate_invalid_params ⟨0, 100, 1, 1/2, 3/10, some 7, (1, 1, 1), false, 1/2⟩ 0
    (Or.inl (by decide))

/-- C3: layerCount = 0 yields a buffer every pixel of which is exactly
the flattened background color — no blob is drawn. -/
theorem generate_zero_layers_flat (p : GenerationParameters) (e : Int)
    (hw : 0 < p.width) (hh : 0 < p.height) (hl : p.layerCount = 0) :
    ∃ buf, generate p e = Except.ok buf ∧
      ∀ row ∈ buf, ∀ px ∈ row,
        px = (quantize (p.backgroundColor.1 : ℝ),
              quantize (p.backgroundColor.2.1 : ℝ),
              quantize (p.backgroundColor.2.2 : ℝ)) := by
  have h1 : ¬ p.width ≤ 0 := by omega
  have h2 : ¬ p.height ≤ 0 := by omega
  have h3 : ¬ p.layerCount < 0 := by omega
  refine ⟨rasterize p (match p.seed with | some s => s | Option.none => e), ?_, ?_⟩
  · simp [generate, h1, h2, h3]
  · intro row hrow px hpx
    simp only [rasterize, List.mem_map, List.mem_range] at hrow
    obtain ⟨y, hy, rfl⟩ := hrow
    simp only [List.mem_map, List.mem_range] at hpx
    obtain ⟨x, hx, rfl⟩ := hpx
    simp [compositeColor, layers, hl]

/-- C3 witness: a 3×2 canvas with zero layers is uniformly the flattened
background color. -/
theorem generate_zero_layers_flat_witness :
    ∃ buf, generate ⟨3, 2, 0, 1/2, 3/10, some 5, (1/2, 1/4, 1), false, 1/2⟩ 0 = Except.ok buf ∧
      ∀ row ∈ buf, ∀ px ∈ row,
        px = (quantize (((1 : ℚ) / 2 : ℚ) : ℝ),
              quantize (((1 : ℚ) / 4 : ℚ) : ℝ),
              quantize (((1 : ℚ) : ℚ) : ℝ)) :=
  generate_zero_layers_flat ⟨3, 2, 0, 1/2, 3/10, some 5, (1/2, 1/4, 1), false, 1/2⟩ 0
    (by decide) (by decide) rfl

/-- C5: for valid parameters generate returns a row-major buffer of
exactly height rows of exactly width RGB triples, every channel an 8-bit
value (at most 255), independent of all other parameters. -/
theorem generate_buffer_shape (p : GenerationParameters) (e : Int)
    (hw : 0 < p.width) (hh : 0 < p.height) (hl : 0 ≤ p.layerCount) :
    ∃ buf, generate p e = Except.ok buf
      ∧ buf.length = p.height.toNat
      ∧ ∀ row ∈ buf, row.length = p.width.toNat
          ∧ ∀ px ∈ row, px.1 ≤ 255 ∧ px.2.1 ≤ 255 ∧ px.2.2 ≤ 255 := by
  have h1 : ¬ p.width ≤ 0 := by omega
  have h2 : ¬ p.height ≤ 0 := by omega
  have h3 : ¬ p.layerCount < 0 := by omega
  refine ⟨rasterize p (match p.seed with | some s => s | Option.none => e), ?_, ?_, ?_⟩
  · simp [generate, h1, h2, h3]
  · simp [rasterize]
  · intro row hrow
    simp only [rasterize, List.mem_map, List.mem_range] at hrow
    obtain ⟨y, hy, rfl⟩ := hrow
    refine ⟨by simp, ?_⟩
    intro px hpx
    simp only [List.mem_map, List.mem_range] at hpx
    obtain ⟨x, hx, rfl⟩ := hpx
    refine ⟨?_, ?_, ?_⟩ <;> exact Nat.min_le_left _ _

/-- C5 witness: width 900 and height 1400 yield a buffer of exactly 1400
rows of 900 byte triples. -/
theorem generate_buffer_shape_witness :
    ∃ buf, generate ⟨900, 1400, 2, 1/2, 3/10, some 7, (1, 1, 1), true, 1/2⟩ 0 = Except.ok buf
      ∧ buf.length = (1400 : Int).toNat
      ∧ ∀ row ∈ buf, row.length = (900 : Int).toNat
          ∧ ∀ px ∈ row, px.1 ≤ 255 ∧ px.2.1 ≤ 255 ∧ px.2.2 ≤ 255 :=
  generate_buffer_shape ⟨900, 1400, 2, 1/2, 3/10, some 7, (1, 1, 1), true, 1/2⟩ 0
    (by decide) (by decide) (by decide)

end Poster
